import Mathlib

set_option autoImplicit false

/-!
Shallow embedding of `backend/server.py`: the agent registry
(`_get_or_create_agent`), the chat and search dispatch handlers
(`chat_with_agent`, `search_and_summarize`) and the Pendle vaults
aggregation endpoint (`get_pendle_vaults`), together with the Python
value semantics (truthiness, `float()`, `int()`, `dict.get`, iteration)
that the vault-parsing loop relies on.  Numbers are modelled as
rationals; agent collaborators are modelled as explicit behaviour
functions passed to the handlers.
-/

/-- JSON values as delivered by collaborators (agent metadata and the
provider payload decoded by `response.json()`). -/
inductive JVal where
  | jnull
  | jbool (b : Bool)
  | jnum (q : Rat)
  | jstr (s : String)
  | jarr (elems : List JVal)
  | jobj (fields : List (String × JVal))

/-- Python exception classes that the vaults code can raise or catch. -/
inductive PyErr where
  | valueError (msg : String)
  | typeError (msg : String)
  | keyError (msg : String)
  | attributeError (msg : String)
  deriving Repr, DecidableEq

/-- `str(exc)` for the exceptions above: Python shows the message. -/
def pyErrMsg : PyErr → String
  | .valueError m => m
  | .typeError m => m
  | .keyError m => m
  | .attributeError m => m

/-- The record-level handler of `get_pendle_vaults` catches exactly
`(ValueError, TypeError, KeyError)`; anything else escapes to the outer
handler. -/
def catchable : PyErr → Bool
  | .valueError _ => true
  | .typeError _ => true
  | .keyError _ => true
  | .attributeError _ => false

/-- First-match association lookup, the model of indexing a Python dict
(whose keys are unique). -/
def alookup {β : Type} (k : String) : List (String × β) → Option β
  | [] => none
  | (k1, v) :: rest => if k = k1 then some v else alookup k rest

/-- Python truthiness, `bool(v)`, for JSON-shaped values. -/
def pyTruthy : JVal → Bool
  | .jnull => false
  | .jbool b => b
  | .jnum q => q != 0
  | .jstr s => s != ""
  | .jarr l => !l.isEmpty
  | .jobj fs => !fs.isEmpty

/-- Value of a non-empty digit string. -/
def digitsVal (cs : List Char) : Nat :=
  cs.foldl (fun n c => n * 10 + (c.toNat - 48)) 0

/-- Core of Python float-literal parsing: digits with an optional single
dot, at least one digit overall (a model of `float(s)` for common
literals; exponents and the inf/nan spellings are out of scope). -/
def floatLitCore (cs : List Char) : Option Rat :=
  match cs.span (·.isDigit) with
  | (intPart, []) =>
      if intPart.isEmpty then none else some (digitsVal intPart)
  | (intPart, '.' :: frac) =>
      if frac.all (·.isDigit) && !(intPart.isEmpty && frac.isEmpty) then
        some ((digitsVal intPart : Rat) + (digitsVal frac : Rat) / ((10 : Rat) ^ frac.length))
      else none
  | _ => none

/-- `float(s)` and `int(s)` strip surrounding whitespace first. -/
def stripSpaces (s : String) : List Char :=
  ((s.toList.dropWhile (· = ' ')).reverse.dropWhile (· = ' ')).reverse

/-- `float(s)` on a string: optional sign, then a float literal;
`none` when Python would raise ValueError. -/
def pyFloatOfString (s : String) : Option Rat :=
  match stripSpaces s with
  | '-' :: cs => (floatLitCore cs).map (fun q => -q)
  | '+' :: cs => floatLitCore cs
  | cs => floatLitCore cs

/-- Python `float(v)` on a JSON value. -/
def pyFloat : JVal → Except PyErr Rat
  | .jnum q => .ok q
  | .jbool b => .ok (if b then 1 else 0)
  | .jstr s =>
      match pyFloatOfString s with
      | some q => .ok q
      | none => .error (.valueError ("could not convert string to float: " ++ s))
  | .jnull => .error (.typeError "float() argument must be a string or a real number, not NoneType")
  | .jarr _ => .error (.typeError "float() argument must be a string or a real number, not list")
  | .jobj _ => .error (.typeError "float() argument must be a string or a real number, not dict")

/-- Integer literal: all digits, non-empty. -/
def intLit (cs : List Char) : Option Int :=
  if cs.isEmpty then none
  else if cs.all (·.isDigit) then some (digitsVal cs : Int)
  else none

/-- `int(s)` on a string: optional sign, then an integer literal. -/
def pyIntOfString (s : String) : Option Int :=
  match stripSpaces s with
  | '-' :: cs => (intLit cs).map (fun n => -n)
  | '+' :: cs => intLit cs
  | cs => intLit cs

/-- Truncation toward zero, the rounding of Python `int(float)`. -/
def ratTrunc (q : Rat) : Int :=
  Int.tdiv q.num (q.den : Int)

/-- Python `int(v)` on a JSON value. -/
def pyInt : JVal → Except PyErr Int
  | .jnum q => .ok (ratTrunc q)
  | .jbool b => .ok (if b then 1 else 0)
  | .jstr s =>
      match pyIntOfString s with
      | some n => .ok n
      | none => .error (.valueError ("invalid literal for int() with base 10: " ++ s))
  | .jnull => .error (.typeError "int() argument must be a string, a bytes-like object or a real number, not NoneType")
  | .jarr _ => .error (.typeError "int() argument must be a string, a bytes-like object or a real number, not list")
  | .jobj _ => .error (.typeError "int() argument must be a string, a bytes-like object or a real number, not dict")

/-- `fields.get(k, dflt)` on a value already known to be a dict. -/
def jGetD (fields : List (String × JVal)) (k : String) (dflt : JVal) : JVal :=
  (alookup k fields).getD dflt

/-- `v.get(k, dflt)` in Python: attribute lookup raises AttributeError
unless `v` is a dict. -/
def dictGet (v : JVal) (k : String) (dflt : JVal) : Except PyErr JVal :=
  match v with
  | .jobj fields => .ok (jGetD fields k dflt)
  | _ => .error (.attributeError ("object has no attribute get: " ++ k))

/-- Python iteration, `for m in v`: lists yield elements, strings yield
one-character strings, dicts yield their keys, other values raise
TypeError. -/
def pyIter : JVal → Except PyErr (List JVal)
  | .jarr l => .ok l
  | .jstr s => .ok (s.toList.map (fun c => .jstr (String.singleton c)))
  | .jobj fields => .ok (fields.map (fun p => .jstr p.1))
  | _ => .error (.typeError "object is not iterable")

/-- pydantic validation of a `str` field (pydantic v2 rejects non-string
JSON values for `str`; a ValidationError is a ValueError). -/
def asStr : JVal → Option String
  | .jstr s => some s
  | _ => none

/-- The pydantic model `VaultData` of the server; floats are rationals. -/
structure VaultData where
  address : String
  name : String
  symbol : String
  expiry : String
  chain_id : Int
  volume_24h : Rat
  liquidity : Rat
  implied_apy : Rat
  underlying_apy : Rat
  lp_apy : Rat
  pt_price : Rat
  yt_price : Rat
  deriving Repr, DecidableEq

/-- The pydantic model `VaultsResponse` of the server. -/
structure VaultsResponse where
  success : Bool
  vaults : List VaultData
  total : Nat
  error : Option String := none
  deriving Repr, DecidableEq

/-- One numeric field of a market: `float(details.get(key, 0))`. -/
def numField (details : JVal) (k : String) : Except PyErr Rat :=
  (dictGet details k (.jnum 0)).bind pyFloat

/-- The seven numeric fields in source order (volume24h, liquidity,
impliedApy, underlyingApy, lpApy, ptPrice, ytPrice). -/
def numFields (details : JVal) : Except PyErr (Rat × Rat × Rat × Rat × Rat × Rat × Rat) :=
  (numField details "volume24h").bind (fun v24 =>
  (numField details "liquidity").bind (fun liq =>
  (numField details "impliedApy").bind (fun ia =>
  (numField details "underlyingApy").bind (fun ua =>
  (numField details "lpApy").bind (fun la =>
  (numField details "ptPrice").bind (fun pt =>
  (numField details "ytPrice").bind (fun yt =>
  .ok (v24, liq, ia, ua, la, pt, yt))))))))

/-- Coercion of one upstream market entry into `VaultData`, mirroring
the try-block body of `get_pendle_vaults`: `market.get(...)` for the
string fields and details, `float(details.get(..., 0))` for the seven
numeric fields in source order, then pydantic validation of the four
string fields.  A non-dict market entry, like a non-dict `details`
value, raises AttributeError (which the record-level `except` clause
does not catch). -/
def coerceMarket (chainId : Int) (market : JVal) : Except PyErr VaultData :=
  match market with
  | .jobj fs =>
      let details := jGetD fs "details" (.jobj [])
      let addrJ := jGetD fs "address" (.jstr "")
      let nameJ := jGetD fs "name" (.jstr "Unknown")
      let symJ := jGetD fs "symbol" (.jstr "")
      let expJ := jGetD fs "expiry" (.jstr "")
      (numFields details).bind (fun t =>
        match asStr addrJ, asStr nameJ, asStr symJ, asStr expJ with
        | some addr, some nm, some sym, some exp =>
            .ok ⟨addr, nm, sym, exp, chainId, t.1, t.2.1, t.2.2.1, t.2.2.2.1,
                 t.2.2.2.2.1, t.2.2.2.2.2.1, t.2.2.2.2.2.2⟩
        | _, _, _, _ => .error (.valueError "validation error for VaultData"))
  | _ => .error (.attributeError "object has no attribute get: details")

/-- Outcome of coercing one record, as an optional survivor. -/
def coerced (chainId : Int) (m : JVal) : Option VaultData :=
  match coerceMarket chainId m with
  | .ok v => some v
  | .error _ => none

/-- A coercion outcome the per-record `except` clause can absorb:
either a success or an error of one of the caught classes. -/
def recoverable (r : Except PyErr VaultData) : Bool :=
  match r with
  | .ok _ => true
  | .error e => catchable e

/-- The per-record loop of `get_pendle_vaults`: a caught coercion fault
skips the record (`continue`), any other exception propagates to the
outer handler. -/
def parseVaults (chainId : Int) : List JVal → Except PyErr (List VaultData)
  | [] => .ok []
  | m :: ms =>
      match coerceMarket chainId m with
      | .ok v => (parseVaults chainId ms).bind (fun vs => .ok (v :: vs))
      | .error e => if catchable e then parseVaults chainId ms else .error e

/-- An `httpx.HTTPError`: timeout, connection failure, or the non-2xx
error raised by `response.raise_for_status()`. -/
structure TransportErr where
  msg : String
  deriving Repr, DecidableEq

/-- The `/api/vaults` handler `get_pendle_vaults`.  The HTTP exchange
(GET, `raise_for_status`, `response.json()`) is summarized by the
`transport` argument: either an `httpx.HTTPError` or the decoded JSON
payload.  A transport error is caught by the `except httpx.HTTPError`
clause; any exception escaping the parsing loop is caught by the outer
`except Exception` clause.  Both produce a normal `VaultsResponse`. -/
def getPendleVaults (chainId : Int) (transport : Except TransportErr JVal) : VaultsResponse :=
  match transport with
  | .error e =>
      { success := false, vaults := [], total := 0,
        error := some ("Failed to fetch vaults: " ++ e.msg) }
  | .ok data =>
      match (dictGet data "markets" (.jarr [])).bind
              (fun mv => (pyIter mv).bind (fun ms => parseVaults chainId ms)) with
      | .ok vaults =>
          { success := true, vaults := vaults, total := vaults.length, error := none }
      | .error e =>
          { success := false, vaults := [], total := 0, error := some (pyErrMsg e) }

/-- An agent instance.  `kind` is the constructor that was used
(SearchAgent or ChatAgent), `id` is a construction-counter probe giving
each constructed instance a distinct identity, and `cfg` records the
`AgentConfig` value applied at construction time. -/
structure Agent where
  kind : String
  id : Nat
  cfg : Nat
  deriving Repr, DecidableEq

/-- A `fastapi.HTTPException`. -/
structure HTTPExc where
  status : Nat
  detail : String
  deriving Repr, DecidableEq

/-- The mutable application state seen by `_get_or_create_agent`:
the `agent_cache` dict (insertion-ordered), a constructor counter
(`nextId`) used to give fresh instances their identity, and the shared
`agent_config` value. -/
structure AppState where
  cache : List (String × Agent)
  nextId : Nat
  config : Nat
  deriving Repr, DecidableEq

/-- `_get_or_create_agent`: return the cached instance when present;
otherwise construct a SearchAgent or ChatAgent from the shared config,
store it in the cache, and return it; an unrecognized type raises
HTTPException(400) naming the type and performs no mutation. -/
def getOrCreateAgent (st : AppState) (agentType : String) : Except HTTPExc Agent × AppState :=
  match alookup agentType st.cache with
  | some a => (.ok a, st)
  | none =>
      if agentType = "search" then
        let a : Agent := ⟨"search", st.nextId, st.config⟩
        (.ok a, { st with cache := st.cache ++ [(agentType, a)], nextId := st.nextId + 1 })
      else if agentType = "chat" then
        let a : Agent := ⟨"chat", st.nextId, st.config⟩
        (.ok a, { st with cache := st.cache ++ [(agentType, a)], nextId := st.nextId + 1 })
      else
        (.error ⟨400, "Unknown agent type \x27" ++ agentType ++ "\x27"⟩, st)

/-- N sequential calls of `_get_or_create_agent` with the same type,
threading the state; returns the outcome of every call. -/
def getOrCreateN (st : AppState) (agentType : String) : Nat → List (Except HTTPExc Agent) × AppState
  | 0 => ([], st)
  | Nat.succ n =>
      let r := getOrCreateAgent st agentType
      let rest := getOrCreateN r.2 agentType n
      (r.1 :: rest.1, rest.2)

/-- The `AgentResult` contract returned by `agent.execute`. -/
structure AgentResult where
  success : Bool
  content : String
  metadata : List (String × JVal)
  error : Option String

/-- Outcome of one `await agent.execute(...)` call: either a structured
`AgentResult`, or an exception whose `str(exc)` is recorded.  Faults of
the agent collaborator are generic exceptions; the only HTTPException
in the dispatch path is the one raised by `_get_or_create_agent`. -/
inductive ExecOutcome where
  | result (r : AgentResult)
  | raise (msg : String)

/-- The pydantic model `ChatResponse`. -/
structure ChatResponse where
  success : Bool
  response : String
  agent_type : String
  capabilities : List String
  metadata : List (String × JVal)
  error : Option String

/-- The `/api/chat` handler `chat_with_agent`.  The agent collaborator
is summarized by `exec` (behaviour of `execute`, invoked with
`use_tools` defaulting to false) and `caps` (`get_capabilities`).  An
HTTPException from agent resolution is re-raised (the `.error`
component); any exception from `execute` is converted into a normal
response with `success=False`, empty response text, empty capability
list, default metadata and `str(exc)` as the error. -/
def chatWithAgent (st : AppState) (message agentType : String)
    (exec : Agent → String → Bool → ExecOutcome) (caps : Agent → List String) :
    Except HTTPExc ChatResponse × AppState :=
  match getOrCreateAgent st agentType with
  | (.error e, st1) => (.error e, st1)
  | (.ok agent, st1) =>
      match exec agent message false with
      | .raise excMsg =>
          (.ok { success := false, response := "", agent_type := agentType,
                 capabilities := [], metadata := [], error := some excMsg }, st1)
      | .result r =>
          (.ok { success := r.success, response := r.content, agent_type := agentType,
                 capabilities := caps agent, metadata := r.metadata, error := r.error }, st1)

/-- The pydantic model `SearchRequest`. -/
structure SearchRequest where
  query : String
  max_results : Int := 5

/-- The pydantic model `SearchResponse`. -/
structure SearchResponse where
  success : Bool
  query : String
  summary : String
  search_results : Option (List (String × JVal))
  sources_count : Int
  error : Option String

/-- `metadata.get("tool_run_count", metadata.get("tools_used", 0))`:
first-present-wins between the two keys, defaulting to the int 0. -/
def winningMeta (metadata : List (String × JVal)) : JVal :=
  (alookup "tool_run_count" metadata).getD ((alookup "tools_used" metadata).getD (.jnum 0))

/-- `int(metadata.get("tool_run_count", metadata.get("tools_used", 0)) or 0)`:
the `or 0` replaces a falsy value by the int 0, then `int()` coerces
(raising ValueError or TypeError on truthy non-numeric values). -/
def sourcesCount (metadata : List (String × JVal)) : Except PyErr Int :=
  pyInt (if pyTruthy (winningMeta metadata) then winningMeta metadata else .jnum 0)

/-- The elaboration prompt built by `search_and_summarize`. -/
def searchPrompt (query : String) : String :=
  "Search for information about: " ++ query ++ ". Provide a comprehensive summary with key findings."

/-- The `/api/search` handler `search_and_summarize`: always resolves
the `"search"` agent, invokes it on the elaboration prompt with
`use_tools=True`, and maps the outcome.  On a structured success the
sources count is computed by `sourcesCount` over
`result.metadata or {}` (the identity here, metadata being a total
mapping); if that coercion raises, the outer `except Exception` clause
produces the failure-shaped response carrying `str(exc)`. -/
def searchAndSummarize (st : AppState) (req : SearchRequest)
    (exec : Agent → String → Bool → ExecOutcome) :
    Except HTTPExc SearchResponse × AppState :=
  match getOrCreateAgent st "search" with
  | (.error e, st1) => (.error e, st1)
  | (.ok agent, st1) =>
      match exec agent (searchPrompt req.query) true with
      | .raise excMsg =>
          (.ok { success := false, query := req.query, summary := "",
                 search_results := none, sources_count := 0, error := some excMsg }, st1)
      | .result r =>
          if r.success then
            match sourcesCount r.metadata with
            | .ok n =>
                (.ok { success := true, query := req.query, summary := r.content,
                       search_results := some r.metadata, sources_count := n,
                       error := none }, st1)
            | .error e =>
                (.ok { success := false, query := req.query, summary := "",
                       search_results := none, sources_count := 0,
                       error := some (pyErrMsg e) }, st1)
          else
            (.ok { success := false, query := req.query, summary := "",
                   search_results := none, sources_count := 0, error := r.error }, st1)

/-- Agent behaviour that always raises, for exercising the fault path. -/
def raisingExec : Agent → String → Bool → ExecOutcome :=
  fun _ _ _ => .raise "boom"

/-- Capability answer used by the chat fixtures. -/
def chatCaps : Agent → List String :=
  fun _ => ["chat-x"]

/-- Agent behaviour returning a successful result whose metadata names
`tools_used`. -/
def toolsUsedExec : Agent → String → Bool → ExecOutcome :=
  fun _ _ _ => .result ⟨true, "written summary", [("tools_used", .jnum 4)], none⟩

/-- A structured failure satisfying the AgentResult contract invariant
(empty content, error present and non-empty). -/
def failingResult : AgentResult :=
  ⟨false, "", [], some "agent failed"⟩

/-- Agent behaviour that always returns `failingResult`. -/
def failingExec : Agent → String → Bool → ExecOutcome :=
  fun _ _ _ => .result failingResult

/-- Agent behaviour whose successful result carries a negative
`tool_run_count`. -/
def negCountExec : Agent → String → Bool → ExecOutcome :=
  fun _ _ _ => .result ⟨true, "s", [("tool_run_count", .jnum (-3))], none⟩

/-- A fully well-formed upstream market entry. -/
def survivingMarket : JVal :=
  .jobj [("address", .jstr "0xgood"), ("name", .jstr "Good"), ("symbol", .jstr "G"),
         ("expiry", .jstr "2025-06-30"),
         ("details", .jobj [("volume24h", .jnum 100), ("liquidity", .jnum 500)])]

/-- A market entry whose liquidity field cannot coerce (ValueError). -/
def invalidLiquidityMarket : JVal :=
  .jobj [("address", .jstr "0xoops"),
         ("details", .jobj [("liquidity", .jstr "not-a-number")])]

/-- Provider payload with one valid and one uncoercible record. -/
def mixedPayload : JVal :=
  .jobj [("markets", .jarr [survivingMarket, invalidLiquidityMarket])]

/-- Provider payload whose second market entry is a bare string, not a
mapping. -/
def nonMappingPayload : JVal :=
  .jobj [("markets", .jarr [survivingMarket, .jstr "bad"])]

/-- Provider payload whose only market entry is a number. -/
def numericMarketsPayload : JVal :=
  .jobj [("markets", .jarr [.jnum 5])]

/-- A market entry used to probe the chain_id and defaulting invariants. -/
def probeFields : List (String × JVal) :=
  [("address", .jstr "0xA"), ("name", .jstr "N"), ("symbol", .jstr "S"),
   ("expiry", .jstr "E"), ("details", .jobj [("volume24h", .jnum 10)])]

/-- The vault obtained by coercing `probeFields` at chain 3. -/
def probeVault : VaultData :=
  ⟨"0xA", "N", "S", "E", 3, 10, 0, 0, 0, 0, 0, 0⟩

/-- A market entry used by the chain_id witness. -/
def chainProbeMarket : JVal :=
  .jobj [("address", .jstr "0xc"), ("name", .jstr "C"), ("symbol", .jstr "CC"),
         ("expiry", .jstr "2026-01-01"), ("details", .jobj [("liquidity", .jnum 9)])]

/-- The vault obtained by coercing `chainProbeMarket` at chain 7. -/
def chainProbeVault : VaultData :=
  ⟨"0xc", "C", "CC", "2026-01-01", 7, 0, 9, 0, 0, 0, 0, 0⟩

/-- Payload holding just `chainProbeMarket`. -/
def chainProbePayload : JVal :=
  .jobj [("markets", .jarr [chainProbeMarket])]

theorem except_bind_ok {ε α β : Type} (x : Except ε α) (f : α → Except ε β) (b : β) :
    x.bind f = Except.ok b ↔ ∃ a, x = Except.ok a ∧ f a = Except.ok b := by
  cases x <;> simp [Except.bind]

theorem alookup_append_self {β : Type} (fs : List (String × β)) (t : String) (b : β)
    (h : alookup t fs = none) : alookup t (fs ++ [(t, b)]) = some b := by
  induction fs with
  | nil => simp [alookup]
  | cons p rest ih =>
      obtain ⟨k, v⟩ := p
      by_cases hk : t = k
      · simp [alookup, hk] at h
      · simp only [List.cons_append, alookup, if_neg hk] at h ⊢
        exact ih h

theorem getOrCreateAgent_cached (st : AppState) (t : String) (a : Agent)
    (h : alookup t st.cache = some a) : getOrCreateAgent st t = (.ok a, st) := by
  simp [getOrCreateAgent, h]

theorem getOrCreateN_cached (st : AppState) (t : String) (a : Agent)
    (h : alookup t st.cache = some a) (n : Nat) :
    getOrCreateN st t n = (List.replicate n (.ok a), st) := by
  induction n with
  | zero => rfl
  | succ k ih => simp [getOrCreateN, getOrCreateAgent_cached st t a h, ih, List.replicate_succ]

/-- C1: for a recognized agent type not yet cached, N sequential calls
of `_get_or_create_agent` all return the same agent handle, the
constructor runs exactly once (the counter advances by exactly one and
exactly one cache entry is added, on the first call), and later calls
neither reconstruct the agent nor re-apply the config (the final state
is already the state after the first call). -/
theorem agent_cache_idempotent (st : AppState) (t : String)
    (ht : t = "chat" ∨ t = "search") (hmiss : alookup t st.cache = none)
    (n : Nat) (hn : 1 ≤ n) :
    ∃ a : Agent,
      getOrCreateN st t n =
        (List.replicate n (.ok a),
         { cache := st.cache ++ [(t, a)], nextId := st.nextId + 1, config := st.config }) := by
  obtain ⟨m, rfl⟩ : ∃ m, n = m + 1 := ⟨n - 1, by omega⟩
  rcases ht with rfl | rfl
  · refine ⟨⟨"chat", st.nextId, st.config⟩, ?_⟩
    have h1 : getOrCreateAgent st "chat" =
        (.ok ⟨"chat", st.nextId, st.config⟩,
         { cache := st.cache ++ [("chat", ⟨"chat", st.nextId, st.config⟩)],
           nextId := st.nextId + 1, config := st.config }) := by
      simp [getOrCreateAgent, hmiss]
    have h2 := getOrCreateN_cached
      { cache := st.cache ++ [("chat", ⟨"chat", st.nextId, st.config⟩)],
        nextId := st.nextId + 1, config := st.config }
      "chat" ⟨"chat", st.nextId, st.config⟩
      (alookup_append_self st.cache "chat" ⟨"chat", st.nextId, st.config⟩ hmiss) m
    simp [getOrCreateN, h1, h2, List.replicate_succ]
  · refine ⟨⟨"search", st.nextId, st.config⟩, ?_⟩
    have h1 : getOrCreateAgent st "search" =
        (.ok ⟨"search", st.nextId, st.config⟩,
         { cache := st.cache ++ [("search", ⟨"search", st.nextId, st.config⟩)],
           nextId := st.nextId + 1, config := st.config }) := by
      simp [getOrCreateAgent, hmiss]
    have h2 := getOrCreateN_cached
      { cache := st.cache ++ [("search", ⟨"search", st.nextId, st.config⟩)],
        nextId := st.nextId + 1, config := st.config }
      "search" ⟨"search", st.nextId, st.config⟩
      (alookup_append_self st.cache "search" ⟨"search", st.nextId, st.config⟩ hmiss) m
    simp [getOrCreateN, h1, h2, List.replicate_succ]

/-- C1 witness: three sequential calls for `"chat"` from a fresh state
return the same handle three times, with the counter advanced once. -/
theorem agent_cache_idempotent_witness :
    1 ≤ 3 ∧
    ∃ a : Agent,
      getOrCreateN ⟨[], 0, 42⟩ "chat" 3 =
        (List.replicate 3 (.ok a), { cache := [("chat", a)], nextId := 1, config := 42 }) :=
  ⟨by decide, agent_cache_idempotent ⟨[], 0, 42⟩ "chat" (Or.inl rfl) rfl 3 (by decide)⟩

/-- C6: an unrecognized agent type makes `_get_or_create_agent` fail
with HTTPException status 400 whose detail names the identifier, and
the state — cache contents and construction counter — is returned
unchanged (no agent constructed, no cache mutation). -/
theorem unknown_agent_type_rejected (st : AppState) (t : String)
    (h1 : t ≠ "chat") (h2 : t ≠ "search") (hmiss : alookup t st.cache = none) :
    getOrCreateAgent st t =
      (.error ⟨400, "Unknown agent type \x27" ++ t ++ "\x27"⟩, st) := by
  simp [getOrCreateAgent, hmiss, h1, h2]

/-- C6 witness: requesting `"bogus"` against an empty cache yields the
400 error naming `"bogus"` and leaves the state untouched. -/
theorem unknown_agent_type_rejected_witness :
    getOrCreateAgent ⟨[], 0, 0⟩ "bogus" =
      (.error ⟨400, "Unknown agent type \x27bogus\x27"⟩, ⟨[], 0, 0⟩) :=
  unknown_agent_type_rejected ⟨[], 0, 0⟩ "bogus" (by decide) (by decide) rfl

/-- C4: any exception raised by the agent collaborator during `execute`
in the chat handler is converted — never propagated — into a normal
`ChatResponse` with `success=False`, empty response string, empty
capability list, and `str(exc)` as the error. -/
theorem chat_fault_isolated (st st1 : AppState) (message t excMsg : String) (a : Agent)
    (exec : Agent → String → Bool → ExecOutcome) (caps : Agent → List String)
    (hget : getOrCreateAgent st t = (.ok a, st1))
    (hexec : exec a message false = .raise excMsg) :
    chatWithAgent st message t exec caps =
      (.ok { success := false, response := "", agent_type := t,
             capabilities := [], metadata := [], error := some excMsg }, st1) := by
  simp [chatWithAgent, hget, hexec]

/-- C4 witness: a chat request against an agent whose `execute` raises
`"boom"` produces the failure-shaped 200 response. -/
theorem chat_fault_isolated_witness :
    chatWithAgent ⟨[], 0, 0⟩ "hi" "chat" raisingExec chatCaps =
      (.ok { success := false, response := "", agent_type := "chat",
             capabilities := [], metadata := [], error := some "boom" },
       ⟨[("chat", ⟨"chat", 0, 0⟩)], 1, 0⟩) :=
  chat_fault_isolated ⟨[], 0, 0⟩ ⟨[("chat", ⟨"chat", 0, 0⟩)], 1, 0⟩ "hi" "chat" "boom"
    ⟨"chat", 0, 0⟩ raisingExec chatCaps rfl rfl

/-- C9: two search requests with the same query and different
`max_results` produce the identical computation and response —
`max_results` is parsed by the request schema but read nowhere in the
handler, so it influences neither the prompt nor the response. -/
theorem max_results_noninterference (st : AppState) (r1 r2 : SearchRequest)
    (exec : Agent → String → Bool → ExecOutcome) (hq : r1.query = r2.query) :
    searchAndSummarize st r1 exec = searchAndSummarize st r2 exec := by
  obtain ⟨q1, m1⟩ := r1
  obtain ⟨q2, m2⟩ := r2
  cases hq
  rfl

/-- C9 witness: `max_results` 1 and 99 give the same response for the
same query. -/
theorem max_results_noninterference_witness :
    searchAndSummarize ⟨[], 0, 0⟩ ⟨"pendle", 1⟩ toolsUsedExec =
      searchAndSummarize ⟨[], 0, 0⟩ ⟨"pendle", 99⟩ toolsUsedExec :=
  max_results_noninterference ⟨[], 0, 0⟩ ⟨"pendle", 1⟩ ⟨"pendle", 99⟩ toolsUsedExec rfl

/-- C8: a structured `AgentResult` failure satisfying the AgentResult
contract invariant (`success=False` implies empty content and a
present, non-empty error) maps to a `ChatResponse` with empty response
string and to a `SearchResponse` with empty summary, both carrying the
same non-empty error — so on the failure path no mapped response has
both empty content/summary and an empty (absent) error. -/
theorem failure_result_mapping (r : AgentResult) (e : String)
    (hr : r.success = false) (hc : r.content = "") (he : r.error = some e) (hne : e ≠ "") :
    (∀ (st st1 : AppState) (message t : String) (a : Agent)
        (exec : Agent → String → Bool → ExecOutcome) (caps : Agent → List String),
        getOrCreateAgent st t = (.ok a, st1) →
        exec a message false = .result r →
        (chatWithAgent st message t exec caps).1 =
          .ok { success := false, response := "", agent_type := t,
                capabilities := caps a, metadata := r.metadata, error := some e } ∧
        some e ≠ (none : Option String) ∧ e ≠ "") ∧
    (∀ (st st1 : AppState) (req : SearchRequest) (a : Agent)
        (exec : Agent → String → Bool → ExecOutcome),
        getOrCreateAgent st "search" = (.ok a, st1) →
        exec a (searchPrompt req.query) true = .result r →
        (searchAndSummarize st req exec).1 =
          .ok { success := false, query := req.query, summary := "",
                search_results := none, sources_count := 0, error := some e } ∧
        some e ≠ (none : Option String) ∧ e ≠ "") := by
  constructor
  · intro st st1 message t a exec caps hget hexec
    refine ⟨?_, by simp, hne⟩
    simp [chatWithAgent, hget, hexec, hr, hc, he]
  · intro st st1 req a exec hget hexec
    refine ⟨?_, by simp, hne⟩
    simp [searchAndSummarize, hget, hexec, hr, he]

/-- C8 witness: the concrete failing result maps to the failure-shaped
chat and search responses with the non-empty error preserved. -/
theorem failure_result_mapping_witness :
    (chatWithAgent ⟨[], 0, 0⟩ "hi" "chat" failingExec chatCaps).1 =
      .ok { success := false, response := "", agent_type := "chat",
            capabilities := ["chat-x"], metadata := [], error := some "agent failed" } ∧
    (searchAndSummarize ⟨[], 0, 0⟩ ⟨"q", 5⟩ failingExec).1 =
      .ok { success := false, query := "q", summary := "",
            search_results := none, sources_count := 0, error := some "agent failed" } := by
  constructor
  · exact ((failure_result_mapping failingResult "agent failed" rfl rfl rfl (by decide)).1
      ⟨[], 0, 0⟩ ⟨[("chat", ⟨"chat", 0, 0⟩)], 1, 0⟩ "hi" "chat" ⟨"chat", 0, 0⟩
      failingExec chatCaps rfl rfl).1
  · exact ((failure_result_mapping failingResult "agent failed" rfl rfl rfl (by decide)).2
      ⟨[], 0, 0⟩ ⟨[("search", ⟨"search", 0, 0⟩)], 1, 0⟩ ⟨"q", 5⟩ ⟨"search", 0, 0⟩
      failingExec rfl rfl).1

/-- C3 (amended): on a structured search success, the handler computes
`sources_count` as `int(v or 0)` where `v` is `metadata["tool_run_count"]`
if present else `metadata["tools_used"]` if present else 0
(first-present-wins).  Missing or falsy values give 0; a truthy numeric
value truncates toward zero and is NOT clamped, so a negative value
stays negative; a truthy value that `int()` cannot convert raises, and
the handler then returns the failure-shaped response (`success=False`,
`str(exc)` as error) rather than `success=True` with 0. -/
theorem sources_count_semantics :
    (∀ md : List (String × JVal),
        alookup "tool_run_count" md = none → alookup "tools_used" md = none →
        sourcesCount md = .ok 0) ∧
    (∀ (md : List (String × JVal)) (w : JVal),
        alookup "tool_run_count" md = some w →
        sourcesCount md = pyInt (if pyTruthy w then w else .jnum 0)) ∧
    (∀ (md : List (String × JVal)) (w : JVal),
        alookup "tool_run_count" md = none →
        alookup "tools_used" md = some w →
        sourcesCount md = pyInt (if pyTruthy w then w else .jnum 0)) ∧
    (∀ q : Rat, q ≠ 0 →
        pyInt (if pyTruthy (.jnum q) then (.jnum q) else .jnum 0) = .ok (ratTrunc q)) ∧
    (∀ (st st1 : AppState) (req : SearchRequest) (a : Agent)
        (exec : Agent → String → Bool → ExecOutcome) (r : AgentResult) (n : Int),
        getOrCreateAgent st "search" = (.ok a, st1) →
        exec a (searchPrompt req.query) true = .result r →
        r.success = true →
        sourcesCount r.metadata = .ok n →
        (searchAndSummarize st req exec).1 =
          .ok { success := true, query := req.query, summary := r.content,
                search_results := some r.metadata, sources_count := n, error := none }) ∧
    (∀ (st st1 : AppState) (req : SearchRequest) (a : Agent)
        (exec : Agent → String → Bool → ExecOutcome) (r : AgentResult) (e : PyErr),
        getOrCreateAgent st "search" = (.ok a, st1) →
        exec a (searchPrompt req.query) true = .result r →
        r.success = true →
        sourcesCount r.metadata = .error e →
        (searchAndSummarize st req exec).1 =
          .ok { success := false, query := req.query, summary := "",
                search_results := none, sources_count := 0,
                error := some (pyErrMsg e) }) := by
  refine ⟨?_, ?_, ?_, ?_, ?_, ?_⟩
  · intro md h1 h2
    simp [sourcesCount, winningMeta, h1, h2, pyTruthy, pyInt, ratTrunc]
  · intro md w h
    simp [sourcesCount, winningMeta, h]
  · intro md w h1 h2
    simp [sourcesCount, winningMeta, h1, h2]
  · intro q hq
    simp [pyTruthy, pyInt, hq]
  · intro st st1 req a exec r n hget hexec hs hsc
    simp [searchAndSummarize, hget, hexec, hs, hsc]
  · intro st st1 req a exec r e hget hexec hs hsc
    simp [searchAndSummarize, hget, hexec, hs, hsc]

/-- C3 witness: metadata naming only `tools_used = 4` gives
`sources_count = 4` on the success path. -/
theorem sources_count_semantics_witness :
    sourcesCount [("tools_used", JVal.jnum 4)] = .ok 4 ∧
    (searchAndSummarize ⟨[], 0, 0⟩ ⟨"q", 5⟩ toolsUsedExec).1 =
      .ok { success := true, query := "q", summary := "written summary",
            search_results := some [("tools_used", JVal.jnum 4)],
            sources_count := 4, error := none } := by
  constructor
  · rfl
  · exact sources_count_semantics.2.2.2.2.1 ⟨[], 0, 0⟩
      ⟨[("search", ⟨"search", 0, 0⟩)], 1, 0⟩ ⟨"q", 5⟩ ⟨"search", 0, 0⟩ toolsUsedExec
      ⟨true, "written summary", [("tools_used", .jnum 4)], none⟩ 4 rfl rfl rfl rfl

/-- C3 counterexample: with `tool_run_count = -3` in the metadata of a
structured success, the handler returns `success=True` and
`sources_count = -3`, not the claimed non-negative 0 — the code does
not clamp negative values. -/
theorem sources_count_counterexample :
    (searchAndSummarize ⟨[], 0, 0⟩ ⟨"q", 5⟩ negCountExec).1 =
      .ok { success := true, query := "q", summary := "s",
            search_results := some [("tool_run_count", JVal.jnum (-3))],
            sources_count := -3, error := none } ∧
    ¬ ((-3 : Int) = 0) :=
  ⟨rfl, by decide⟩

theorem parseVaults_ok_eq (c : Int) (ms : List JVal) (l : List VaultData)
    (h : parseVaults c ms = .ok l) : l = ms.filterMap (coerced c) := by
  induction ms generalizing l with
  | nil =>
      simp [parseVaults] at h
      simp [h.symm]
  | cons m ms ih =>
      rw [parseVaults] at h
      split at h
      next v hc =>
        rcases (except_bind_ok _ _ _).1 h with ⟨vs, hvs, hok⟩
        injection hok with hok
        subst hok
        simp [List.filterMap_cons, coerced, hc, ih vs hvs]
      next e hc =>
        split at h
        next hcat => simp [List.filterMap_cons, coerced, hc, ih l h]
        next hcat => cases h

theorem parseVaults_total (c : Int) (ms : List JVal)
    (h : ∀ m ∈ ms, recoverable (coerceMarket c m) = true) :
    parseVaults c ms = .ok (ms.filterMap (coerced c)) := by
  induction ms with
  | nil => rfl
  | cons m ms ih =>
      have hm := h m (List.mem_cons_self m ms)
      have hrest : ∀ x ∈ ms, recoverable (coerceMarket c x) = true :=
        fun x hx => h x (List.mem_cons_of_mem m hx)
      rw [parseVaults]
      cases hc : coerceMarket c m with
      | ok v => simp [ih hrest, List.filterMap_cons, coerced, hc, Except.bind]
      | error e =>
          rw [hc] at hm
          simp [recoverable] at hm
          simp [hm, ih hrest, List.filterMap_cons, coerced, hc]

theorem parseVaults_abort (c : Int) (ms : List JVal)
    (h : ∃ m ∈ ms, recoverable (coerceMarket c m) = false) :
    ∃ e, parseVaults c ms = .error e := by
  induction ms with
  | nil => simp at h
  | cons m ms ih =>
      cases hc : coerceMarket c m with
      | ok v =>
          have h2 : ∃ x ∈ ms, recoverable (coerceMarket c x) = false := by
            rcases h with ⟨x, hx, hrec⟩
            rcases List.mem_cons.mp hx with rfl | hx2
            · rw [hc] at hrec
              simp [recoverable] at hrec
            · exact ⟨x, hx2, hrec⟩
          rcases ih h2 with ⟨e2, he2⟩
          refine ⟨e2, ?_⟩
          rw [parseVaults, hc]
          simp [he2, Except.bind]
      | error e =>
          by_cases hcat : catchable e = true
          · have h2 : ∃ x ∈ ms, recoverable (coerceMarket c x) = false := by
              rcases h with ⟨x, hx, hrec⟩
              rcases List.mem_cons.mp hx with rfl | hx2
              · rw [hc] at hrec
                simp [recoverable, hcat] at hrec
              · exact ⟨x, hx2, hrec⟩
            rcases ih h2 with ⟨e2, he2⟩
            refine ⟨e2, ?_⟩
            rw [parseVaults, hc]
            simp [hcat, he2]
          · refine ⟨e, ?_⟩
            rw [parseVaults, hc]
            simp [hcat]

theorem numField_absent (d : List (String × JVal)) (k : String)
    (h : alookup k d = none) : numField (.jobj d) k = .ok 0 := by
  simp [numField, dictGet, jGetD, h, Except.bind, pyFloat]

theorem numFields_ok_inv (dj : JVal) (t : Rat × Rat × Rat × Rat × Rat × Rat × Rat)
    (h : numFields dj = .ok t) :
    numField dj "volume24h" = .ok t.1 ∧
    numField dj "liquidity" = .ok t.2.1 ∧
    numField dj "impliedApy" = .ok t.2.2.1 ∧
    numField dj "underlyingApy" = .ok t.2.2.2.1 ∧
    numField dj "lpApy" = .ok t.2.2.2.2.1 ∧
    numField dj "ptPrice" = .ok t.2.2.2.2.2.1 ∧
    numField dj "ytPrice" = .ok t.2.2.2.2.2.2 := by
  rw [numFields] at h
  rcases (except_bind_ok _ _ _).1 h with ⟨v24, h1, h⟩
  rcases (except_bind_ok _ _ _).1 h with ⟨liq, h2, h⟩
  rcases (except_bind_ok _ _ _).1 h with ⟨ia, h3, h⟩
  rcases (except_bind_ok _ _ _).1 h with ⟨ua, h4, h⟩
  rcases (except_bind_ok _ _ _).1 h with ⟨la, h5, h⟩
  rcases (except_bind_ok _ _ _).1 h with ⟨pt, h6, h⟩
  rcases (except_bind_ok _ _ _).1 h with ⟨yt, h7, h⟩
  injection h with h
  subst h
  exact ⟨h1, h2, h3, h4, h5, h6, h7⟩

theorem coerceMarket_ok_inv (c : Int) (m : JVal) (v : VaultData)
    (h : coerceMarket c m = .ok v) :
    ∃ fs, m = .jobj fs ∧
      v.chain_id = c ∧
      numFields (jGetD fs "details" (.jobj [])) =
        .ok (v.volume_24h, v.liquidity, v.implied_apy, v.underlying_apy,
             v.lp_apy, v.pt_price, v.yt_price) := by
  cases m with
  | jnull => simp [coerceMarket] at h
  | jbool b => simp [coerceMarket] at h
  | jnum q => simp [coerceMarket] at h
  | jstr s => simp [coerceMarket] at h
  | jarr l => simp [coerceMarket] at h
  | jobj fs =>
      refine ⟨fs, rfl, ?_⟩
      simp only [coerceMarket] at h
      rcases (except_bind_ok _ _ _).1 h with ⟨t, ht, hmatch⟩
      split at hmatch
      · injection hmatch with hv
        subst hv
        exact ⟨rfl, ht⟩
      · cases hmatch

/-- C10: every vault returned by `get_pendle_vaults` carries the
requested `chain_id` — the field is set from the request parameter, so
no upstream market entry can influence it. -/
theorem vaults_chain_id_invariant (c : Int) (tr : Except TransportErr JVal)
    (v : VaultData) (hv : v ∈ (getPendleVaults c tr).vaults) : v.chain_id = c := by
  cases tr with
  | error e => simp [getPendleVaults] at hv
  | ok data =>
      rw [getPendleVaults] at hv
      cases hb : (dictGet data "markets" (.jarr [])).bind
          (fun mv => (pyIter mv).bind (fun ms => parseVaults c ms)) with
      | error e =>
          rw [hb] at hv
          simp at hv
      | ok vaults =>
          rw [hb] at hv
          simp at hv
          rcases (except_bind_ok _ _ _).1 hb with ⟨mv, hmv, hb2⟩
          rcases (except_bind_ok _ _ _).1 hb2 with ⟨ms, hms, hpv⟩
          rcases List.mem_filterMap.mp (parseVaults_ok_eq c ms vaults hpv ▸ hv) with ⟨m, hm, hcm⟩
          rw [coerced] at hcm
          cases hc : coerceMarket c m with
          | ok w =>
              rw [hc] at hcm
              injection hcm with hw
              subst hw
              rcases coerceMarket_ok_inv c m _ hc with ⟨fs2, _, hcid, _⟩
              exact hcid
          | error e =>
              rw [hc] at hcm
              cases hcm

/-- C10 witness: the concrete payload coerced at `chain_id = 7` yields
a vault whose chain_id is 7. -/
theorem vaults_chain_id_invariant_witness : chainProbeVault.chain_id = 7 :=
  vaults_chain_id_invariant 7 (.ok chainProbePayload) chainProbeVault
    (show chainProbeVault ∈ (getPendleVaults 7 (.ok chainProbePayload)).vaults from
      List.Mem.head _)

/-- C7: every numeric field of a coerced market defaults to 0 when the
upstream `details` mapping omits its key (or omits `details` entirely),
while a record whose coercion raises is dropped from the output — the
survivors are exactly the coercion successes, in input order, with no
defaulted stand-in for a dropped record. -/
theorem numeric_defaults_and_drops :
    (∀ (c : Int) (fs d : List (String × JVal)) (v : VaultData),
        alookup "details" fs = some (.jobj d) →
        coerceMarket c (.jobj fs) = .ok v →
        ((alookup "volume24h" d = none → v.volume_24h = 0) ∧
         (alookup "liquidity" d = none → v.liquidity = 0) ∧
         (alookup "impliedApy" d = none → v.implied_apy = 0) ∧
         (alookup "underlyingApy" d = none → v.underlying_apy = 0) ∧
         (alookup "lpApy" d = none → v.lp_apy = 0) ∧
         (alookup "ptPrice" d = none → v.pt_price = 0) ∧
         (alookup "ytPrice" d = none → v.yt_price = 0))) ∧
    (∀ (c : Int) (fs : List (String × JVal)) (v : VaultData),
        alookup "details" fs = none →
        coerceMarket c (.jobj fs) = .ok v →
        (v.volume_24h = 0 ∧ v.liquidity = 0 ∧ v.implied_apy = 0 ∧ v.underlying_apy = 0 ∧
         v.lp_apy = 0 ∧ v.pt_price = 0 ∧ v.yt_price = 0)) ∧
    (∀ (c : Int) (ms : List JVal) (l : List VaultData),
        parseVaults c ms = .ok l → l = ms.filterMap (coerced c)) := by
  refine ⟨?_, ?_, fun c ms l h => parseVaults_ok_eq c ms l h⟩
  · intro c fs d v hdet hok
    rcases coerceMarket_ok_inv c (.jobj fs) v hok with ⟨fs2, hfs, _, hnf⟩
    injection hfs with hfs
    subst hfs
    have hd : jGetD fs "details" (.jobj []) = .jobj d := by simp [jGetD, hdet]
    rw [hd] at hnf
    obtain ⟨h1, h2, h3, h4, h5, h6, h7⟩ := numFields_ok_inv _ _ hnf
    refine ⟨fun ha => ?_, fun ha => ?_, fun ha => ?_, fun ha => ?_,
            fun ha => ?_, fun ha => ?_, fun ha => ?_⟩
    · have h0 := (numField_absent d "volume24h" ha).symm.trans h1
      injection h0 with h0
      exact h0.symm
    · have h0 := (numField_absent d "liquidity" ha).symm.trans h2
      injection h0 with h0
      exact h0.symm
    · have h0 := (numField_absent d "impliedApy" ha).symm.trans h3
      injection h0 with h0
      exact h0.symm
    · have h0 := (numField_absent d "underlyingApy" ha).symm.trans h4
      injection h0 with h0
      exact h0.symm
    · have h0 := (numField_absent d "lpApy" ha).symm.trans h5
      injection h0 with h0
      exact h0.symm
    · have h0 := (numField_absent d "ptPrice" ha).symm.trans h6
      injection h0 with h0
      exact h0.symm
    · have h0 := (numField_absent d "ytPrice" ha).symm.trans h7
      injection h0 with h0
      exact h0.symm
  · intro c fs v hdet hok
    rcases coerceMarket_ok_inv c (.jobj fs) v hok with ⟨fs2, hfs, _, hnf⟩
    injection hfs with hfs
    subst hfs
    have hd : jGetD fs "details" (.jobj []) = .jobj [] := by simp [jGetD, hdet]
    rw [hd] at hnf
    obtain ⟨h1, h2, h3, h4, h5, h6, h7⟩ := numFields_ok_inv _ _ hnf
    refine ⟨?_, ?_, ?_, ?_, ?_, ?_, ?_⟩
    · have h0 := (numField_absent [] "volume24h" rfl).symm.trans h1
      injection h0 with h0
      exact h0.symm
    · have h0 := (numField_absent [] "liquidity" rfl).symm.trans h2
      injection h0 with h0
      exact h0.symm
    · have h0 := (numField_absent [] "impliedApy" rfl).symm.trans h3
      injection h0 with h0
      exact h0.symm
    · have h0 := (numField_absent [] "underlyingApy" rfl).symm.trans h4
      injection h0 with h0
      exact h0.symm
    · have h0 := (numField_absent [] "lpApy" rfl).symm.trans h5
      injection h0 with h0
      exact h0.symm
    · have h0 := (numField_absent [] "ptPrice" rfl).symm.trans h6
      injection h0 with h0
      exact h0.symm
    · have h0 := (numField_absent [] "ytPrice" rfl).symm.trans h7
      injection h0 with h0
      exact h0.symm

/-- C7 witness: a market omitting `liquidity` coerces with liquidity 0. -/
theorem numeric_defaults_and_drops_witness :
    alookup "liquidity" [("volume24h", JVal.jnum 10)] = none ∧
    coerceMarket 3 (.jobj probeFields) = .ok probeVault ∧
    probeVault.liquidity = 0 :=
  ⟨rfl, rfl,
    (numeric_defaults_and_drops.1 3 probeFields [("volume24h", JVal.jnum 10)]
      probeVault rfl rfl).2.1 rfl⟩

theorem length_filterMap_isSome {α β : Type} (f : α → Option β) (l : List α) :
    (l.filterMap f).length = l.countP (fun a => (f a).isSome) := by
  induction l with
  | nil => rfl
  | cons a l ih => cases hf : f a <;> simp [List.filterMap_cons, hf, List.countP_cons, ih]

/-- C2 (amended): when the payload carries a markets list each of whose
entries either coerces or fails with one of the caught coercion errors
(ValueError, TypeError, KeyError — e.g. a non-numeric numeric field),
`get_pendle_vaults` returns `success=True`, exactly the surviving
records in input order, no error, and `total` equal to the number of
survivors (not the provider count); the dropped entries do not appear.
A record failing with any other error — e.g. the AttributeError raised
by a non-mapping entry — instead aborts the whole call (see the
counterexample). -/
theorem list_vaults_partial_tolerance (c : Int) (data mv : JVal) (ms : List JVal)
    (hmk : dictGet data "markets" (.jarr []) = .ok mv)
    (hit : pyIter mv = .ok ms)
    (hrec : ∀ m ∈ ms, recoverable (coerceMarket c m) = true) :
    getPendleVaults c (.ok data) =
      { success := true, vaults := ms.filterMap (coerced c),
        total := (ms.filterMap (coerced c)).length, error := none } ∧
    (ms.filterMap (coerced c)).length = ms.countP (fun m => (coerced c m).isSome) := by
  constructor
  · have hb : (dictGet data "markets" (.jarr [])).bind
        (fun mv2 => (pyIter mv2).bind (fun ms2 => parseVaults c ms2)) =
        .ok (ms.filterMap (coerced c)) := by
      rw [hmk]
      simp [Except.bind, hit, parseVaults_total c ms hrec]
    simp [getPendleVaults, hb]
  · exact length_filterMap_isSome _ _

/-- C2 witness: one valid record and one record with a non-numeric
liquidity give `success=True`, one surviving vault, `total = 1`. -/
theorem list_vaults_partial_tolerance_witness :
    (∀ m ∈ [survivingMarket, invalidLiquidityMarket],
        recoverable (coerceMarket 7 m) = true) ∧
    getPendleVaults 7 (.ok mixedPayload) =
      { success := true,
        vaults := [survivingMarket, invalidLiquidityMarket].filterMap (coerced 7),
        total := ([survivingMarket, invalidLiquidityMarket].filterMap (coerced 7)).length,
        error := none } ∧
    ([survivingMarket, invalidLiquidityMarket].filterMap (coerced 7)).length = 1 := by
  have hrec : ∀ m ∈ [survivingMarket, invalidLiquidityMarket],
      recoverable (coerceMarket 7 m) = true := by
    intro m hm
    rcases List.mem_cons.mp hm with rfl | hm2
    · rfl
    · rcases List.mem_cons.mp hm2 with rfl | hm3
      · rfl
      · exact absurd hm3 (List.not_mem_nil m)
  exact ⟨hrec,
    (list_vaults_partial_tolerance 7 mixedPayload
      (.jarr [survivingMarket, invalidLiquidityMarket])
      [survivingMarket, invalidLiquidityMarket] rfl rfl hrec).1, rfl⟩

/-- C2 counterexample: a payload with K=1 record that coerces and M=1
record whose coercion throws (AttributeError, from a non-mapping entry)
does NOT return `success=True` with `total=1` — the uncaught error
aborts the whole call, refuting the claim quantified over all records
whose coercion throws. -/
theorem list_vaults_partial_tolerance_counterexample :
    (coerced 1 survivingMarket).isSome = true ∧
    coerceMarket 1 (JVal.jstr "bad") =
      .error (.attributeError "object has no attribute get: details") ∧
    (getPendleVaults 1 (.ok nonMappingPayload)).success = false ∧
    (getPendleVaults 1 (.ok nonMappingPayload)).total = 0 :=
  ⟨rfl, rfl, rfl, rfl⟩

/-- C5 (amended): a transport or HTTP fault (httpx.HTTPError: timeout,
connection failure, non-2xx) makes `get_pendle_vaults` return
`success=False`, an empty vault list, `total=0`, and a non-empty error
prefixed with the transport description — as a normal response, with no
record-level exception escaping.  It is NOT the only failure mode that
aborts the entire result set: an unexpectedly-shaped successful payload
(such as a non-mapping market entry) also aborts (see the
counterexample). -/
theorem transport_failure_aborts (c : Int) (e : TransportErr) :
    getPendleVaults c (.error e) =
      { success := false, vaults := [], total := 0,
        error := some ("Failed to fetch vaults: " ++ e.msg) } ∧
    0 < ("Failed to fetch vaults: " ++ e.msg).length := by
  refine ⟨rfl, ?_⟩
  rw [String.length_append]
  have h24 : ("Failed to fetch vaults: ").length = 24 := rfl
  omega

/-- C5 counterexample: a fully successful transport whose payload has a
non-mapping market entry also aborts the entire result set
(`success=False`, `total=0`, error set), refuting the clause that the
transport/HTTP fault is the only failure mode aborting the result. -/
theorem transport_failure_aborts_counterexample :
    (getPendleVaults 1 (.ok numericMarketsPayload)).success = false ∧
    (getPendleVaults 1 (.ok numericMarketsPayload)).total = 0 ∧
    (getPendleVaults 1 (.ok numericMarketsPayload)).error ≠ none :=
  ⟨rfl, rfl, by decide⟩
